import Mathlib

/-!
Verification development for the AnomRadar scan-result cache and
multi-probe orchestration layer.

Shallow embedding of:
* `anomradar/core/cache.py` (class `Cache`: `get`, `set`, `delete`,
  `clear`, `cleanup_expired`),
* `anomradar/scanners/__init__.py` (`ScanStatus`, `Signal`,
  `BaseScanner.create_result`, `create_degraded_result`,
  `create_failed_result`),
* `anomradar/scanners/http.py`, `dns.py`, `ssl.py` (the `scan`
  methods, with the probe-specific network phase abstracted as an
  input outcome),
* `anomradar/cli.py` (`scan` command scanner selection and the
  `run_scans` aggregation loop).

Modelling conventions: Python floats for epoch times are modelled as
`Int`; the filesystem cache directory is an association list from file
name to file content; a stored file is either unparsable (`corrupt`,
also covering parsable-but-not-a-dict contents, which behave
identically in every operation of the source) or a parsed JSON object
given by its item list (unique keys, as produced by `json.load`).
-/

/-- JSON-like values, the payloads the Python code passes around as
plain dicts/lists/strings/numbers. Numbers are modelled as `Int`. -/
inductive JVal where
  | null : JVal
  | bool (b : Bool) : JVal
  | num (n : Int) : JVal
  | str (s : String) : JVal
  | arr (xs : List JVal) : JVal
  | obj (kvs : List (String × JVal)) : JVal

/-- Python truthiness of a JSON-like value (`if cached:` in the
scanners): `None`, `False`, `0`, `""`, `[]`, and the empty dict are
falsy, everything else is truthy. -/
def JVal.truthy : JVal → Bool
  | .null => false
  | .bool b => b
  | .num n => n != 0
  | .str s => s != ""
  | .arr xs => !xs.isEmpty
  | .obj kvs => !kvs.isEmpty

/-- Python numeric coercion used by `time.time() - data[\x7b...\x7d]`
style arithmetic: an int/float is itself, a bool counts as 0/1, and any
other value raises `TypeError` (modelled as `none`). -/
def JVal.asNum : JVal → Option Int
  | .num n => some n
  | .bool b => some (if b then 1 else 0)
  | _ => none

/-- Lookup of a field in a parsed JSON object (`data[field]` in
Python, `none` modelling the `KeyError` path). -/
def lookupField (data : List (String × JVal)) (field : String) : Option JVal :=
  (data.find? (fun p => p.1 == field)).map Prod.snd

/-- Field lookup on a `JVal`: `none` when the value is not an object
(Python raises `TypeError`, caught by the callers we model). -/
def jvalField : JVal → String → Option JVal
  | .obj kvs, field => lookupField kvs field
  | _, _ => none

/-- Content of one cache file on disk: either it fails `json.load`
(or parses to a non-dict, which every modelled operation treats the
same way), or it is a parsed JSON object. -/
inductive CacheFile where
  | corrupt : CacheFile
  | record (data : List (String × JVal)) : CacheFile

/-- The cache directory: file name to file content. -/
abbrev Store : Type := List (String × CacheFile)

/-- Find a file in the cache directory (`cache_path.exists()` plus
`open`/`json.load` combined: `none` means the file does not exist). -/
def storeFind (s : Store) (name : String) : Option CacheFile :=
  (List.find? (fun p => p.1 == name) s).map Prod.snd

/-- Remove a file from the cache directory (`cache_path.unlink()`). -/
def storeErase (s : Store) (name : String) : Store :=
  List.filter (fun p => p.1 != name) s

/-- Write a file, replacing any previous content (`open(path, "w")`
followed by `json.dump`). -/
def storeInsert (s : Store) (name : String) (f : CacheFile) : Store :=
  (name, f) :: storeErase s name

/-- Configuration of a `Cache` instance: `ttl` and `enabled` from
`Cache.__init__` (`cache_dir` is the store itself in this model). -/
structure Cache where
  ttl : Int
  enabled : Bool

/-- Modelled `Cache._get_cache_path`: the source maps a key to the
file name `sha256(key).hexdigest() ++ ".json"`. The hash is injective
for all practical purposes and no claim concerns collisions, so the
key-to-file-name map is modelled as the identity. -/
def cache_path (key : String) : String := key

/-- How a `set` call's file write goes: `ok` (write succeeds),
`openFail` (`open` raises, file untouched), `dumpFail` (`json.dump`
raises midway, leaving a truncated, unparsable file). -/
inductive WriteMode where
  | ok : WriteMode
  | openFail : WriteMode
  | dumpFail : WriteMode

/-- Embedding of `Cache.get` (cache.py lines 59-93). Returns the
cached value (or `none`) together with the cache directory after the
call. Follows the source exactly: disabled cache returns `None`;
missing file returns `None`; an entry whose `timestamp` field is
absent or non-numeric raises inside the `try`, which is caught and
returns `None` with the file left in place; an expired entry is
unlinked and `None` returned; otherwise `data["value"]` is returned
(a missing `value` field again raises and is caught, file left in
place). -/
def Cache.get (c : Cache) (s : Store) (now : Int) (key : String) :
    Option JVal × Store :=
  if c.enabled = false then (none, s)
  else
    match storeFind s (cache_path key) with
    | none => (none, s)
    | some .corrupt => (none, s)
    | some (.record data) =>
      match (lookupField data ("timestamp")).bind JVal.asNum with
      | none => (none, s)
      | some ts =>
        if now - ts > c.ttl then (none, storeErase s (cache_path key))
        else
          match lookupField data ("value") with
          | some v => (some v, s)
          | none => (none, s)

/-- Embedding of `Cache.set` (cache.py lines 95-126). Writes the
record `{"key": key, "value": value, "timestamp": time.time()}` and
returns `True`; a disabled cache or a failed write returns `False`
(exceptions are caught inside `set`, never propagated). A write that
fails midway (`dumpFail`) leaves a truncated file behind. -/
def Cache.set (c : Cache) (s : Store) (now : Int) (w : WriteMode)
    (key : String) (v : JVal) : Bool × Store :=
  if c.enabled = false then (false, s)
  else
    match w with
    | .ok =>
        (true, storeInsert s (cache_path key)
          (.record [("key", .str key), ("value", v), ("timestamp", .num now)]))
    | .openFail => (false, s)
    | .dumpFail => (false, storeInsert s (cache_path key) .corrupt)

/-- Embedding of `Cache.delete` (cache.py lines 128-152): unlink the
file if it exists, reporting whether something was removed. -/
def Cache.delete (c : Cache) (s : Store) (key : String) : Bool × Store :=
  if c.enabled = false then (false, s)
  else
    match storeFind s (cache_path key) with
    | some _ => (true, storeErase s (cache_path key))
    | none => (false, s)

/-- Embedding of `Cache.clear` (cache.py lines 154-173): unlink every
`*.json` file, counting them. -/
def Cache.clear (c : Cache) (s : Store) : Nat × Store :=
  if c.enabled = false then (0, s)
  else (s.length, ([] : List (String × CacheFile)))

/-- One iteration of the `cleanup_expired` loop body (cache.py lines
188-198): a file is removed when it fails to parse, when accessing
`data["timestamp"]` raises (missing field or non-numeric value), or
when it is expired against the cache-level TTL. -/
def entryExpiredOrBad (c : Cache) (now : Int) : CacheFile → Bool
  | .corrupt => true
  | .record data =>
    match (lookupField data ("timestamp")).bind JVal.asNum with
    | none => true
    | some ts => decide (now - ts > c.ttl)

/-- The `cleanup_expired` loop over all cache files, returning the
number of files unlinked and the directory afterwards. -/
def cleanupLoop (c : Cache) (now : Int) : Store → Nat × Store
  | [] => (0, [])
  | e :: rest =>
    let r := cleanupLoop c now rest
    if entryExpiredOrBad c now e.2 then (r.1 + 1, r.2) else (r.1, e :: r.2)

/-- Embedding of `Cache.cleanup_expired` (cache.py lines 175-205). -/
def Cache.cleanup_expired (c : Cache) (s : Store) (now : Int) : Nat × Store :=
  if c.enabled = false then (0, s)
  else cleanupLoop c now s

/-- Scan result status (`ScanStatus` in scanners/__init__.py). The
middle status is named `part` here because its Python name collides
with a Lean keyword; its `.value` is the source string "partial". -/
inductive ScanStatus where
  | success : ScanStatus
  | part : ScanStatus
  | failed : ScanStatus

/-- The string value of a status (`ScanStatus.SUCCESS.value` etc.). -/
def ScanStatus.value : ScanStatus → String
  | .success => "success"
  | .part => "partial"
  | .failed => "failed"

/-- A finding/alert produced by a scan (`Signal` class). -/
structure Signal where
  severity : String
  message : String
  details : List (String × JVal)

/-- Embedding of `Signal.to_dict`. -/
def Signal.to_dict (s : Signal) : JVal :=
  .obj [("severity", .str s.severity), ("message", .str s.message),
        ("details", .obj s.details)]

/-- A Python exception as seen by the handlers we model: its class
name (`type(e).__name__`) and its message (`str(e)`). -/
structure PyError where
  ename : String
  emsg : String

/-- Embedding of `BaseScanner.create_result` (scanners/__init__.py
lines 85-109). -/
def create_result (status : ScanStatus) (signals : List Signal)
    (summary : String) (details : List (String × JVal)) : JVal :=
  .obj [("status", .str status.value),
        ("signals", .arr (signals.map Signal.to_dict)),
        ("summary", .str summary),
        ("details", .obj details)]

/-- Embedding of `BaseScanner.create_degraded_result` (lines 111-136):
a PARTIAL result carrying the error that degraded the scan and
whatever data was collected. -/
def create_degraded_result (error : PyError)
    (collected : List (String × JVal)) : JVal :=
  .obj [("status", .str "partial"),
        ("signals", .arr [Signal.to_dict
          ⟨"info", "Scan completed with errors: " ++ error.emsg,
            [("error_type", .str error.ename)]⟩]),
        ("summary", .str ("Partial scan completed (error: " ++ error.ename ++ ")")),
        ("details", .obj collected),
        ("error", .str error.emsg)]

/-- Embedding of `BaseScanner.create_failed_result` (lines 138-162):
a FAILED result carrying the error. -/
def create_failed_result (error : PyError) : JVal :=
  .obj [("status", .str "failed"),
        ("signals", .arr [Signal.to_dict
          ⟨"info", "Scan failed: " ++ error.emsg,
            [("error_type", .str error.ename)]⟩]),
        ("summary", .str ("Scan failed: " ++ error.ename)),
        ("details", .obj ([] : List (String × JVal))),
        ("error", .str error.emsg)]

/-- The cache-consultation prologue shared verbatim by the three
scanners: `if self.cache:` then `cached = self.cache.get(cache_key)`
and `if cached: return cached`. `none` in the first component means
the scanner goes on to execute its network phase. -/
def cacheCheck (c : Option Cache) (s : Store) (now : Int) (key : String) :
    Option JVal × Store :=
  match c with
  | none => (none, s)
  | some cc =>
    let r := Cache.get cc s now key
    match r.1 with
    | some v => if v.truthy then (some v, r.2) else (none, r.2)
    | none => (none, r.2)

/-- Observable outcome of one scanner invocation in the model: the
returned result dict, the cache directory afterwards, and whether the
network phase was entered (i.e. whether the cache check missed). -/
structure RunnerOut where
  result : JVal
  store : Store
  executed : Bool

/-- Target normalization in `HttpScanner.scan` (http.py lines 53-55). -/
def normalizeHttpTarget (t : String) : String :=
  if t.startsWith ("http://") || t.startsWith ("https://") then t
  else "https://" ++ t

/-- Outcome of the network phase of `HttpScanner.scan`: the `try`
body completes (producing the signals, summary and details the probe
assembled — probe-specific parsing is outside this core), or it
raises one of the three handled exception classes. -/
inductive HttpNet where
  | completes (signals : List Signal) (summary : String)
      (details : List (String × JVal)) : HttpNet
  | timeoutExc (e : PyError) : HttpNet
  | connectExc (e : PyError) : HttpNet
  | otherExc (e : PyError) : HttpNet

/-- Whether the HTTP network phase ended in a handled exception
(yielding a PARTIAL or FAILED result) rather than completing. -/
def HttpNet.isFailing : HttpNet → Bool
  | .completes _ _ _ => false
  | _ => true

/-- Embedding of `HttpScanner.scan` (http.py lines 43-156): normalize
the target, consult the cache, run the network phase, build the
result (SUCCESS results are cached before returning; timeouts and
connection errors yield degraded PARTIAL results; any other exception
yields a FAILED result; neither is cached). -/
def HttpScanner.scan (c : Option Cache) (s : Store) (now : Int)
    (w : WriteMode) (target : String) (net : HttpNet) : RunnerOut :=
  let key := "http:" ++ normalizeHttpTarget target
  let ck := cacheCheck c s now key
  match ck.1 with
  | some v => ⟨v, ck.2, false⟩
  | none =>
    match net with
    | .completes sigs sm dt =>
      let result := create_result .success sigs sm dt
      match c with
      | some cc => ⟨result, (Cache.set cc ck.2 now w key result).2, true⟩
      | none => ⟨result, ck.2, true⟩
    | .timeoutExc e =>
      ⟨create_degraded_result e [("timeout", .bool true)], ck.2, true⟩
    | .connectExc e =>
      ⟨create_degraded_result e [("connection_error", .bool true)], ck.2, true⟩
    | .otherExc e => ⟨create_failed_result e, ck.2, true⟩

/-- Domain normalization in `DnsScanner.scan` (dns.py lines 57-60):
strip URL schemes, strip trailing slashes, keep only the first path
segment. -/
def normalizeDnsTarget (t : String) : String :=
  let d := (((t.replace ("http://") "").replace ("https://") "").dropRightWhile
    (fun ch => ch == '/'))
  if d.contains '/' then (d.splitOn ("/")).headD "" else d

/-- Outcomes of `DnsScanner.scan`'s try body as the scan-level
handlers (dns.py lines 198-204) spell them: completion, `NXDOMAIN`
ending the scan early, `dns.exception.Timeout`, or another escaping
exception. Note the `timeoutExc` handler is dead code in the actual
program: `resolver.resolve` is only called inside the per-record-type
`try` whose `except Exception` (line 140) catches `dns.exception.
Timeout` first, so a timed-out query degrades to an empty record
list and the loop continues; `DnsScanner.scanQueries` below is the
record-level model that shows this. -/
inductive DnsNet where
  | completes (signals : List Signal) (summary : String)
      (details : List (String × JVal)) : DnsNet
  | nxdomain : DnsNet
  | timeoutExc (e : PyError) (collected : List (String × JVal)) : DnsNet
  | otherExc (e : PyError) : DnsNet

/-- Whether the DNS network phase ended in a PARTIAL or FAILED
outcome rather than success. -/
def DnsNet.isFailing : DnsNet → Bool
  | .completes _ _ _ => false
  | _ => true

/-- Embedding of `DnsScanner.scan` (dns.py lines 47-204). NXDOMAIN
returns a FAILED result built from `Exception("Domain does not
exist: ...")`; a timeout returns a degraded PARTIAL result with the
details collected so far; only the SUCCESS result is cached. -/
def DnsScanner.scan (c : Option Cache) (s : Store) (now : Int)
    (w : WriteMode) (target : String) (net : DnsNet) : RunnerOut :=
  let domain := normalizeDnsTarget target
  let key := "dns:" ++ domain
  let ck := cacheCheck c s now key
  match ck.1 with
  | some v => ⟨v, ck.2, false⟩
  | none =>
    match net with
    | .completes sigs sm dt =>
      let result := create_result .success sigs sm dt
      match c with
      | some cc => ⟨result, (Cache.set cc ck.2 now w key result).2, true⟩
      | none => ⟨result, ck.2, true⟩
    | .nxdomain =>
      ⟨create_failed_result ⟨"Exception", "Domain does not exist: " ++ domain⟩,
        ck.2, true⟩
    | .timeoutExc e collected =>
      ⟨create_degraded_result e collected, ck.2, true⟩
    | .otherExc e => ⟨create_failed_result e, ck.2, true⟩

/-- Hostname/port extraction in `SslScanner.scan` (ssl.py lines
55-62). Modelled `urlparse` for the `scheme://host[:port][/...]`
shapes the scanner receives: the authority is everything up to the
first `/` after the scheme, an explicit numeric port is used,
otherwise 443. -/
def sslHostPort (t : String) : String × Nat :=
  if t.startsWith ("http://") || t.startsWith ("https://") then
    let rest := (t.replace ("https://") "").replace ("http://") ""
    let auth := (rest.splitOn ("/")).headD ""
    match auth.splitOn (":") with
    | [h, p] => (h, (p.toNat?).getD 443)
    | parts => (parts.headD "", 443)
  else (t, 443)

/-- Outcomes of `SslScanner.scan`'s try body as the scan-level
handlers (ssl.py lines 196-213) spell them: completion;
`_get_certificate` returning `None`; or one of the four handled
exception classes escaping (`sockTimeout` and `sslError` carry the
details collected before the exception). Note the `sockTimeout`
handler is dead code in the actual program: all socket I/O happens
inside `_get_certificate` (lines 227-233), which catches every
exception — timeouts included — and returns `None`, so a timed-out
connection takes the `certNone` path; `SslScanner.get_certificate`
below models that helper. -/
inductive SslNet where
  | completes (signals : List Signal) (summary : String)
      (details : List (String × JVal)) : SslNet
  | certNone : SslNet
  | sockTimeout (collected : List (String × JVal)) : SslNet
  | gaiError (e : PyError) : SslNet
  | sslError (e : PyError) : SslNet
  | otherExc (e : PyError) : SslNet

/-- Embedding of `SslScanner.scan` (ssl.py lines 45-213). A missing
certificate and `socket.gaierror` yield FAILED results; a socket
timeout and `ssl.SSLError` yield degraded PARTIAL results; only the
SUCCESS result is cached. -/
def SslScanner.scan (c : Option Cache) (s : Store) (now : Int)
    (w : WriteMode) (target : String) (net : SslNet) : RunnerOut :=
  let hp := sslHostPort target
  let key := "ssl:" ++ hp.1 ++ ":" ++ toString hp.2
  let ck := cacheCheck c s now key
  match ck.1 with
  | some v => ⟨v, ck.2, false⟩
  | none =>
    match net with
    | .completes sigs sm dt =>
      let result := create_result .success sigs sm dt
      match c with
      | some cc => ⟨result, (Cache.set cc ck.2 now w key result).2, true⟩
      | none => ⟨result, ck.2, true⟩
    | .certNone =>
      ⟨create_failed_result
        ⟨"Exception",
          "Could not retrieve certificate for " ++ hp.1 ++ ":" ++ toString hp.2⟩,
        ck.2, true⟩
    | .sockTimeout collected =>
      ⟨create_degraded_result
        ⟨"Exception", "Connection timeout to " ++ hp.1 ++ ":" ++ toString hp.2⟩
        collected, ck.2, true⟩
    | .gaiError e => ⟨create_failed_result e, ck.2, true⟩
    | .sslError e =>
      ⟨create_degraded_result e [("ssl_error", .str e.emsg)], ck.2, true⟩
    | .otherExc e => ⟨create_failed_result e, ck.2, true⟩

/-- ASCII lowering of one character, the case Python's `str.lower()`
performs on the scanner-name strings involved here (all ASCII). -/
def asciiLowerChar (ch : Char) : Char :=
  if 65 ≤ ch.toNat ∧ ch.toNat ≤ 90 then Char.ofNat (ch.toNat + 32) else ch

/-- Embedding of Python `s.lower()` (structurally recursive so that
concrete instances evaluate). -/
def pyLower (s : String) : String := ⟨s.data.map asciiLowerChar⟩

/-- The registered scanner catalog (`available_scanners` in
cli.py line 170). -/
def available_scanners : List String := ["http", "dns", "ssl"]

/-- Scanner selection in the `scan` command (cli.py lines 169-174):
with no `--scanner` options (or an empty list, both falsy in Python)
all scanners run; otherwise the requested names are lowercased and
silently filtered against the catalog. -/
def select_scanners (scanners : List String) : List String :=
  if scanners.isEmpty then available_scanners
  else (scanners.map pyLower).filter
    (fun s => decide (s ∈ available_scanners))

/-- What awaiting one scanner task yields: a result value, or a
raised exception. The scanner embeddings above never raise, but the
orchestrator's `except` clause (cli.py lines 220-222) exists exactly
for the unexpected case, which this type makes expressible. -/
inductive TaskOutcome where
  | returns (v : JVal) : TaskOutcome
  | raises (e : PyError) : TaskOutcome

/-- Whether a task outcome is a normal return. -/
def TaskOutcome.isReturns : TaskOutcome → Bool
  | .returns _ => true
  | .raises _ => false

/-- Python dict insertion `results[name] = v` on an
insertion-ordered dict modelled as an association list. -/
def dictInsert (d : List (String × JVal)) (k : String) (v : JVal) :
    List (String × JVal) :=
  if d.any (fun p => p.1 == k) then
    d.map (fun p => if p.1 == k then (k, v) else p)
  else d ++ [(k, v)]

/-- Task construction in `run_scans` (cli.py lines 189-204): one task
per selected scanner, in the fixed order http, dns, ssl. -/
def build_tasks (selected : List String) (outcomes : String → TaskOutcome) :
    List (String × TaskOutcome) :=
  (if selected.contains "http" then [("http", outcomes "http")] else []) ++
  (if selected.contains "dns" then [("dns", outcomes "dns")] else []) ++
  (if selected.contains "ssl" then [("ssl", outcomes "ssl")] else [])

/-- The await-and-collect loop of `run_scans` (cli.py lines 206-222),
threading the `results` dict: each task is awaited inside a `try`; a
normal result is stored in `results`; a raised exception is logged
and the scanner is left out of `results` entirely (the later
status-display lookup happens after the insertion, so its own
failures do not remove the entry). -/
def run_scans_go (results : List (String × JVal)) :
    List (String × TaskOutcome) → List (String × JVal)
  | [] => results
  | t :: rest =>
    match t.2 with
    | .returns v => run_scans_go (dictInsert results t.1 v) rest
    | .raises _ => run_scans_go results rest

/-- Embedding of the `run_scans` coroutine of the `scan` command
(cli.py lines 188-222): starting from an empty `results` dict, await
every task and collect the outcomes that return normally. -/
def run_scans (tasks : List (String × TaskOutcome)) : List (String × JVal) :=
  run_scans_go [] tasks

/-- The record types `DnsScanner.scan` queries (dns.py line 74). -/
def dnsRecordTypes : List String := ["A", "AAAA", "MX", "TXT", "NS", "SOA"]

/-- Outcome of one `resolver.resolve(domain, record_type)` call as
the per-record-type handlers (dns.py lines 79-142) distinguish them:
parsed records, `NoAnswer`, `NXDOMAIN`, or any other exception —
`dns.exception.Timeout` included, since it is an `Exception`
subclass caught by the inner `except Exception` at line 140. -/
inductive DnsQuery where
  | answers (records : List JVal) : DnsQuery
  | noAnswer : DnsQuery
  | nxdomain : DnsQuery
  | queryExc (e : PyError) : DnsQuery

/-- Signals generated inside the query loop for one answered record
type (dns.py lines 108-128): an info signal for nonempty A records,
and an MX signal either way. -/
def dnsAnswerSignals (record_type : String) (records : List JVal) :
    List Signal :=
  (if record_type == "A" && !records.isEmpty then
    [⟨"info", "Found " ++ toString records.length ++ " A record(s)",
      [("records", .arr records)]⟩]
  else []) ++
  (if record_type == "MX" then
    (if records.isEmpty then
      [⟨"low", "No MX records found (email may not work)",
        [("record_type", .str "MX")]⟩]
    else
      [⟨"info", "Found " ++ toString records.length ++ " MX record(s)",
        [("records", .arr records)]⟩])
  else [])

/-- The record query loop of `DnsScanner.scan` (dns.py lines 76-142),
threading the `details` dict and the `signals` list: an answered
type stores its records and signals; `NoAnswer` and any other
exception (timeouts included) store an empty list and continue;
`NXDOMAIN` aborts the whole scan (`none`). -/
def dnsQueryLoop (queries : String → DnsQuery) :
    List String → List (String × JVal) → List Signal →
    Option (List (String × JVal) × List Signal)
  | [], details, signals => some (details, signals)
  | rt :: rest, details, signals =>
    match queries rt with
    | .answers records =>
      dnsQueryLoop queries rest
        (dictInsert details (pyLower rt) (.arr records))
        (signals ++ dnsAnswerSignals rt records)
    | .noAnswer =>
      dnsQueryLoop queries rest
        (dictInsert details (pyLower rt) (.arr [])) signals
    | .nxdomain => none
    | .queryExc _ =>
      dnsQueryLoop queries rest
        (dictInsert details (pyLower rt) (.arr [])) signals

/-- Helper for Python's substring test `needle in hay` on the
character list of a string. -/
def strContainsAux (needle : List Char) : List Char → Bool
  | [] => needle.isEmpty
  | c :: rest => needle.isPrefixOf (c :: rest) || strContainsAux needle rest

/-- Python `needle in hay` for strings. -/
def strContains (hay needle : String) : Bool :=
  strContainsAux needle.data hay.data

/-- `any(needle in record.lower() for record in txt_records)` (dns.py
lines 146 and 161). TXT records built by the parse block are always
strings (`str(rdata)`); a non-string value — on which Python would
raise an `AttributeError` caught by the scan-level handler — cannot
arise there and is given the harmless value false. -/
def dnsTxtFound (needle : String) (txt : List JVal) : Bool :=
  txt.any (fun r =>
    match r with
    | .str s0 => strContains (pyLower s0) needle
    | _ => false)

/-- The SPF/DMARC signals appended after the query loop (dns.py
lines 144-173), computed from `details.get("txt", [])`. -/
def dnsSpfDmarcSignals (details : List (String × JVal)) : List Signal :=
  let txt := match lookupField details ("txt") with
    | some (.arr rs) => rs
    | _ => []
  (if dnsTxtFound ("spf") txt then
    [⟨"info", "SPF record found", [("spf", .bool true)]⟩]
  else
    [⟨"medium", "No SPF record found (email security risk)",
      [("recommendation",
        .str "Add SPF record to prevent email spoofing")]⟩]) ++
  (if dnsTxtFound ("dmarc") txt then
    [⟨"info", "DMARC record found", [("dmarc", .bool true)]⟩]
  else
    [⟨"medium", "No DMARC record found (email security risk)",
      [("recommendation",
        .str "Add DMARC record for email authentication")]⟩])

/-- `sum(len(v) if isinstance(v, list) else 0 for v in
details.values())` (dns.py lines 176-179). -/
def dnsRecordCount (details : List (String × JVal)) : Nat :=
  (details.map (fun p =>
    match p.2 with
    | .arr xs => xs.length
    | _ => 0)).sum

/-- The DNS summary string (dns.py lines 180-182). -/
def dnsSummary (details : List (String × JVal)) (signals : List Signal) :
    String :=
  let base := "DNS scan completed: " ++ toString (dnsRecordCount details)
    ++ " total records found"
  if signals.isEmpty then base
  else base ++ ", " ++ toString signals.length ++ " findings"

/-- Record-level embedding of `DnsScanner.scan` (dns.py lines
47-204): the resolver outcome of each record type drives the query
loop; `NXDOMAIN` yields the FAILED "Domain does not exist" result,
and every completed loop — even one where all queries timed out —
reaches the SUCCESS result, which is cached. The scan-level
`except dns.exception.Timeout` / `except Exception` handlers are
unreachable from the paths modelled here (no resolver exception
escapes the inner loop, and the post-loop analysis of the records
the loop itself built does not raise). -/
def DnsScanner.scanQueries (c : Option Cache) (s : Store) (now : Int)
    (w : WriteMode) (target : String) (queries : String → DnsQuery) :
    RunnerOut :=
  let domain := normalizeDnsTarget target
  let key := "dns:" ++ domain
  let ck := cacheCheck c s now key
  match ck.1 with
  | some v => ⟨v, ck.2, false⟩
  | none =>
    match dnsQueryLoop queries dnsRecordTypes [] [] with
    | none =>
      ⟨create_failed_result
        ⟨"Exception", "Domain does not exist: " ++ domain⟩, ck.2, true⟩
    | some (details, sigs0) =>
      let signals := sigs0 ++ dnsSpfDmarcSignals details
      let result := create_result .success signals
        (dnsSummary details signals) details
      match c with
      | some cc => ⟨result, (Cache.set cc ck.2 now w key result).2, true⟩
      | none => ⟨result, ck.2, true⟩

/-- Embedding of `SslScanner._get_certificate` (ssl.py lines
215-233): the connection/handshake either yields the peer
certificate dict or raises, and EVERY exception — socket timeouts
included — is caught inside this helper, which then returns `None`
(sending `SslScanner.scan` down its `certNone` path). -/
def SslScanner.get_certificate
    (outcome : Except PyError (List (String × JVal))) :
    Option (List (String × JVal)) :=
  match outcome with
  | .ok cert => some cert
  | .error _ => none

theorem storeFind_cons (a : String × CacheFile) (t : Store) (k : String) :
    storeFind (a :: t) k = if a.1 == k then some a.2 else storeFind t k := by
  by_cases h : a.1 == k
  · simp [storeFind, List.find?_cons_of_pos, h]
  · simp [storeFind, List.find?_cons_of_neg, h]

theorem storeErase_cons (a : String × CacheFile) (t : Store) (k : String) :
    storeErase (a :: t) k =
      if a.1 == k then storeErase t k else a :: storeErase t k := by
  by_cases h : a.1 == k
  · rw [if_pos h]
    show List.filter (fun p => p.1 != k) (a :: t) = storeErase t k
    rw [List.filter_cons]
    have hb : (a.1 != k) = false := by simp [bne, h]
    rw [hb, if_neg (by simp)]
    rfl
  · rw [if_neg h]
    show List.filter (fun p => p.1 != k) (a :: t) = a :: storeErase t k
    rw [List.filter_cons]
    have hb : (a.1 != k) = true := by
      simp only [bne, Bool.not_eq_true']
      simpa using h
    rw [hb, if_pos rfl]
    rfl

theorem storeFind_erase_self (s : Store) (k : String) :
    storeFind (storeErase s k) k = none := by
  induction s with
  | nil => rfl
  | cons a t ih =>
    rw [storeErase_cons]
    by_cases h : a.1 == k
    · simpa [h] using ih
    · rw [if_neg h, storeFind_cons, if_neg h]
      exact ih

theorem storeFind_insert_self (s : Store) (k : String) (f : CacheFile) :
    storeFind (storeInsert s k f) k = some f := by
  rw [storeInsert, storeFind_cons]
  simp

theorem Cache.get_absent (c : Cache) (s : Store) (now : Int) (k : String)
    (h : storeFind s (cache_path k) = none) :
    Cache.get c s now k = (none, s) := by
  unfold Cache.get
  split
  · rfl
  · rw [h]

theorem Cache.get_cases (c : Cache) (s : Store) (now : Int) (k : String) :
    (Cache.get c s now k).2 = s ∨
    ((Cache.get c s now k).1 = none ∧
      (Cache.get c s now k).2 = storeErase s (cache_path k)) := by
  unfold Cache.get
  split
  · left; rfl
  · split
    · left; rfl
    · left; rfl
    · split
      · left; rfl
      · split
        · right; exact ⟨rfl, rfl⟩
        · split
          · left; rfl
          · left; rfl

theorem Cache.get_pair_eta (c : Cache) (s : Store) (now : Int) (k : String) :
    Cache.get c s now k = ((Cache.get c s now k).1, (Cache.get c s now k).2) :=
  rfl

theorem Cache.get_miss_again (c : Cache) (s : Store) (now : Int) (k : String)
    (h : (Cache.get c s now k).1 = none) :
    Cache.get c (Cache.get c s now k).2 now k =
      (none, (Cache.get c s now k).2) := by
  rcases Cache.get_cases c s now k with h2 | ⟨_, h2⟩
  · rw [h2, Cache.get_pair_eta c s now k, h, h2]
  · rw [h2]
    exact Cache.get_absent c _ now k (storeFind_erase_self s (cache_path k))

theorem Cache.get_some_store (c : Cache) (s : Store) (now : Int) (k : String)
    (v : JVal) (h : (Cache.get c s now k).1 = some v) :
    (Cache.get c s now k).2 = s := by
  rcases Cache.get_cases c s now k with h2 | ⟨h1, _⟩
  · exact h2
  · rw [h1] at h
    exact absurd h (by simp)

theorem Cache.set_ok (c : Cache) (s : Store) (now : Int) (k : String)
    (v : JVal) (hen : c.enabled = true) :
    Cache.set c s now .ok k v =
      (true, storeInsert s (cache_path k)
        (.record [("key", .str k), ("value", v), ("timestamp", .num now)])) := by
  unfold Cache.set
  rw [if_neg (by simp [hen])]

theorem Cache.get_fresh (c : Cache) (s : Store) (now2 : Int) (k : String)
    (data : List (String × JVal)) (ts : Int) (v : JVal)
    (hen : c.enabled = true)
    (hf : storeFind s (cache_path k) = some (.record data))
    (hts : lookupField data ("timestamp") = some (.num ts))
    (hv : lookupField data ("value") = some v)
    (hfresh : ¬(now2 - ts > c.ttl)) :
    Cache.get c s now2 k = (some v, s) := by
  unfold Cache.get
  rw [if_neg (by simp [hen])]
  simp only [hf]
  rw [hts]
  simp only [Option.some_bind, JVal.asNum]
  rw [if_neg hfresh, hv]

theorem Cache.get_stale (c : Cache) (s : Store) (now2 : Int) (k : String)
    (data : List (String × JVal)) (ts : Int)
    (hen : c.enabled = true)
    (hf : storeFind s (cache_path k) = some (.record data))
    (hts : lookupField data ("timestamp") = some (.num ts))
    (hstale : now2 - ts > c.ttl) :
    Cache.get c s now2 k = (none, storeErase s (cache_path k)) := by
  unfold Cache.get
  rw [if_neg (by simp [hen])]
  simp only [hf]
  rw [hts]
  simp only [Option.some_bind, JVal.asNum]
  rw [if_pos hstale]

theorem Cache.get_corrupt (c : Cache) (s : Store) (now : Int) (k : String)
    (hcor : storeFind s (cache_path k) = some CacheFile.corrupt) :
    Cache.get c s now k = (none, s) := by
  unfold Cache.get
  split
  · rfl
  · rw [hcor]

theorem Cache.get_no_timestamp (c : Cache) (s : Store) (now : Int) (k : String)
    (data : List (String × JVal))
    (hf : storeFind s (cache_path k) = some (.record data))
    (hts : (lookupField data ("timestamp")).bind JVal.asNum = none) :
    Cache.get c s now k = (none, s) := by
  unfold Cache.get
  split
  · rfl
  · simp only [hf]
    rw [hts]

theorem cleanupLoop_snd (c : Cache) (now : Int) (s : Store) :
    (cleanupLoop c now s).2 =
      s.filter (fun e => !entryExpiredOrBad c now e.2) := by
  induction s with
  | nil => rfl
  | cons a t ih =>
    by_cases h : entryExpiredOrBad c now a.2
    · simp [cleanupLoop, h, List.filter_cons, ih]
    · have hb : entryExpiredOrBad c now a.2 = false := by simpa using h
      simp [cleanupLoop, hb, List.filter_cons, ih]

theorem cleanupLoop_count (c : Cache) (now : Int) (s : Store) :
    (cleanupLoop c now s).1 + (cleanupLoop c now s).2.length = s.length := by
  induction s with
  | nil => rfl
  | cons a t ih =>
    by_cases h : entryExpiredOrBad c now a.2
    · simp only [cleanupLoop, h, if_true, List.length_cons]
      omega
    · have hb : entryExpiredOrBad c now a.2 = false := by simpa using h
      simp only [cleanupLoop, hb, Bool.false_eq_true, if_false, List.length_cons]
      omega

theorem cleanupLoop_all_fresh (c : Cache) (now : Int) (s : Store)
    (h : ∀ e ∈ s, entryExpiredOrBad c now e.2 = false) :
    (cleanupLoop c now s).1 = 0 := by
  induction s with
  | nil => rfl
  | cons a t ih =>
    have ha : entryExpiredOrBad c now a.2 = false :=
      h a (List.mem_cons_self a t)
    simp only [cleanupLoop, ha, Bool.false_eq_true, if_false]
    exact ih (fun e he => h e (List.mem_cons_of_mem a he))

theorem entryExpiredOrBad_false_iff (c : Cache) (now : Int) (f : CacheFile) :
    entryExpiredOrBad c now f = false ↔
      ∃ data ts, f = CacheFile.record data ∧
        (lookupField data ("timestamp")).bind JVal.asNum = some ts ∧
        ¬(now - ts > c.ttl) := by
  cases f with
  | corrupt => simp [entryExpiredOrBad]
  | record data =>
    cases h : (lookupField data ("timestamp")).bind JVal.asNum with
    | none => simp [entryExpiredOrBad, h]
    | some ts =>
      simp only [entryExpiredOrBad, h, decide_eq_false_iff_not]
      constructor
      · intro hn
        exact ⟨data, ts, rfl, h, hn⟩
      · rintro ⟨data2, ts2, hdata, hts2, hn⟩
        cases hdata
        rw [h] at hts2
        cases hts2
        exact hn

theorem Cache.cleanup_expired_enabled (c : Cache) (now : Int)
    (hen : c.enabled = true) (s : Store) :
    Cache.cleanup_expired c s now = cleanupLoop c now s := by
  unfold Cache.cleanup_expired
  rw [if_neg (by simp [hen])]

/-- Claim C3, counterexample: with a corrupted cache file present,
`get` returns absent but does NOT delete the corrupted entry — the
file is still in the store after the call, refuting the claim's
deletion side effect. -/
theorem C3_counterexample :
    (Cache.get ⟨3600, true⟩ [("badkey", CacheFile.corrupt)] 0 "badkey").1
      = none ∧
    (Cache.get ⟨3600, true⟩ [("badkey", CacheFile.corrupt)] 0 "badkey").2
      = [("badkey", CacheFile.corrupt)] ∧
    storeFind
      (Cache.get ⟨3600, true⟩ [("badkey", CacheFile.corrupt)] 0 "badkey").2
      ("badkey") = some CacheFile.corrupt :=
  ⟨rfl, rfl, rfl⟩

/-- Claim C3 (amended): for a key whose stored cache file is
corrupted, `get(key)` returns absent rather than raising, but it
leaves the corrupted entry in the store unchanged; corrupted entries
are removed only by `cleanup_expired`. -/
theorem C3_amended (c : Cache) (s : Store) (now : Int) (k : String)
    (hcor : storeFind s (cache_path k) = some CacheFile.corrupt) :
    Cache.get c s now k = (none, s) ∧
    (c.enabled = true → ∀ name : String,
      (name, CacheFile.corrupt) ∈ (Cache.cleanup_expired c s now).2 → False) := by
  refine ⟨Cache.get_corrupt c s now k hcor, ?_⟩
  intro hen name hmem
  rw [Cache.cleanup_expired_enabled c now hen, cleanupLoop_snd] at hmem
  have hkeep := (List.mem_filter.mp hmem).2
  simp [entryExpiredOrBad] at hkeep

/-- Witness for C3_amended at a concrete corrupted store. -/
theorem C3_amended_witness :
    storeFind [("x", CacheFile.corrupt)] (cache_path "x")
        = some CacheFile.corrupt ∧
    (Cache.get ⟨3600, true⟩ [("x", CacheFile.corrupt)] 0 "x"
        = (none, [("x", CacheFile.corrupt)]) ∧
      ((⟨3600, true⟩ : Cache).enabled = true → ∀ name : String,
        (name, CacheFile.corrupt) ∈
          (Cache.cleanup_expired ⟨3600, true⟩ [("x", CacheFile.corrupt)] 0).2 →
          False)) :=
  ⟨rfl, C3_amended ⟨3600, true⟩ [("x", CacheFile.corrupt)] 0 "x" rfl⟩

/-- Claim C6: with the cache enabled, a successful `set(k, v)`
followed by `get(k)` within the TTL window returns `v` (round-trip),
and a failing `set` never raises — it reports failure through its
boolean return value. -/
theorem C6_roundtrip (c : Cache) (s : Store) (now now2 : Int) (k : String)
    (v : JVal) (hen : c.enabled = true) (hfresh : now2 - now ≤ c.ttl) :
    (Cache.get c (Cache.set c s now .ok k v).2 now2 k).1 = some v ∧
    (∀ (s2 : Store) (now3 : Int) (w : WriteMode) (k2 : String) (v2 : JVal),
      w ≠ WriteMode.ok → (Cache.set c s2 now3 w k2 v2).1 = false) := by
  constructor
  · rw [Cache.set_ok c s now k v hen]
    show (Cache.get c
      (storeInsert s (cache_path k)
        (.record [("key", .str k), ("value", v), ("timestamp", .num now)]))
      now2 k).1 = some v
    rw [Cache.get_fresh c
      (storeInsert s (cache_path k)
        (.record [("key", .str k), ("value", v), ("timestamp", .num now)]))
      now2 k [("key", .str k), ("value", v), ("timestamp", .num now)] now v hen
      (storeFind_insert_self s (cache_path k) _) rfl rfl (by omega)]
  · intro s2 now3 w k2 v2 hw
    cases w with
    | ok => exact absurd rfl hw
    | openFail =>
      unfold Cache.set
      split
      · rfl
      · rfl
    | dumpFail =>
      unfold Cache.set
      split
      · rfl
      · rfl

/-- Witness for C6_roundtrip at a concrete key and value. -/
theorem C6_roundtrip_witness :
    ((⟨3600, true⟩ : Cache).enabled = true ∧ (7 : Int) - 5 ≤ (3600 : Int)) ∧
    ((Cache.get ⟨3600, true⟩
        (Cache.set ⟨3600, true⟩ [] 5 .ok "k" (JVal.str "v")).2 7 "k").1
      = some (JVal.str "v") ∧
    (∀ (s2 : Store) (now3 : Int) (w : WriteMode) (k2 : String) (v2 : JVal),
      w ≠ WriteMode.ok →
        (Cache.set ⟨3600, true⟩ s2 now3 w k2 v2).1 = false)) :=
  ⟨⟨rfl, by decide⟩,
    C6_roundtrip ⟨3600, true⟩ [] 5 7 "k" (JVal.str "v") rfl (by decide)⟩

/-- Claim C7: once the elapsed time since an entry was stored exceeds
the governing TTL, `get(k)` returns absent and removes the expired
entry from the store (lazy purge), so a direct inspection of the
store no longer finds it. -/
theorem C7_lazy_expiry (c : Cache) (s : Store) (now ts : Int) (k : String)
    (data : List (String × JVal))
    (hen : c.enabled = true)
    (hf : storeFind s (cache_path k) = some (.record data))
    (hts : lookupField data ("timestamp") = some (.num ts))
    (hexp : now - ts > c.ttl) :
    (Cache.get c s now k).1 = none ∧
    storeFind (Cache.get c s now k).2 (cache_path k) = none := by
  rw [Cache.get_stale c s now k data ts hen hf hts hexp]
  exact ⟨rfl, storeFind_erase_self s (cache_path k)⟩

/-- Witness for C7_lazy_expiry at a concrete expired entry. -/
theorem C7_lazy_expiry_witness :
    ((⟨10, true⟩ : Cache).enabled = true ∧
     storeFind [("k", CacheFile.record
         [("timestamp", JVal.num 0), ("value", JVal.null)])] (cache_path "k")
       = some (CacheFile.record [("timestamp", JVal.num 0), ("value", JVal.null)]) ∧
     lookupField [("timestamp", JVal.num 0), ("value", JVal.null)] ("timestamp")
       = some (JVal.num 0) ∧
     (100 : Int) - 0 > (10 : Int)) ∧
    ((Cache.get ⟨10, true⟩
        [("k", CacheFile.record
          [("timestamp", JVal.num 0), ("value", JVal.null)])] 100 "k").1 = none ∧
     storeFind (Cache.get ⟨10, true⟩
        [("k", CacheFile.record
          [("timestamp", JVal.num 0), ("value", JVal.null)])] 100 "k").2
        (cache_path "k") = none) :=
  ⟨⟨rfl, rfl, rfl, by decide⟩,
    C7_lazy_expiry ⟨10, true⟩
      [("k", CacheFile.record [("timestamp", JVal.num 0), ("value", JVal.null)])]
      100 0 "k" [("timestamp", JVal.num 0), ("value", JVal.null)]
      rfl rfl rfl (by decide)⟩

/-- Claim C8, counterexample: the record actually persisted by `set`
has fields `key`, `value`, `timestamp` — it contains neither a
`storedAt` nor a `ttlSeconds` field, refuting the claimed
self-describing format. -/
theorem C8_counterexample :
    storeFind (Cache.set ⟨3600, true⟩ [] 5 .ok "k" (JVal.str "v")).2
        (cache_path "k")
      = some (CacheFile.record
          [("key", JVal.str "k"), ("value", JVal.str "v"),
           ("timestamp", JVal.num 5)]) ∧
    lookupField
      [("key", JVal.str "k"), ("value", JVal.str "v"), ("timestamp", JVal.num 5)]
      ("storedAt") = none ∧
    lookupField
      [("key", JVal.str "k"), ("value", JVal.str "v"), ("timestamp", JVal.num 5)]
      ("ttlSeconds") = none :=
  ⟨rfl, rfl, rfl⟩

/-- Claim C8 (amended): each persisted entry is a record with fields
`key`, `value` and `timestamp` (epoch seconds at write time); expiry
on read is judged against the cache-level TTL, not a per-entry
`ttlSeconds`; a record whose `timestamp` field is missing is treated
as absent on read but is NOT deleted by `get`. -/
theorem C8_amended (c : Cache) (s : Store) (now now2 ts : Int) (k : String)
    (v : JVal) (data : List (String × JVal)) (hen : c.enabled = true) :
    ((Cache.set c s now .ok k v).2 = storeInsert s (cache_path k)
      (.record [("key", .str k), ("value", v), ("timestamp", .num now)])) ∧
    (storeFind s (cache_path k) = some (.record data) →
      lookupField data ("timestamp") = some (.num ts) →
      lookupField data ("value") = some v →
      Cache.get c s now2 k =
        if now2 - ts > c.ttl then (none, storeErase s (cache_path k))
        else (some v, s)) ∧
    (storeFind s (cache_path k) = some (.record data) →
      lookupField data ("timestamp") = none →
      Cache.get c s now2 k = (none, s)) := by
  refine ⟨?_, ?_, ?_⟩
  · rw [Cache.set_ok c s now k v hen]
  · intro hf hts hv
    by_cases hexp : now2 - ts > c.ttl
    · rw [if_pos hexp]
      exact Cache.get_stale c s now2 k data ts hen hf hts hexp
    · rw [if_neg hexp]
      exact Cache.get_fresh c s now2 k data ts v hen hf hts hv hexp
  · intro hf hts
    refine Cache.get_no_timestamp c s now2 k data hf ?_
    rw [hts]
    rfl

/-- Witness for C8_amended at a concrete entry. -/
theorem C8_amended_witness :
    ((⟨10, true⟩ : Cache).enabled = true) ∧
    (((Cache.set ⟨10, true⟩
        [("k", CacheFile.record [("timestamp", JVal.num 0), ("value", JVal.str "v")])]
        1 .ok "k" (JVal.str "v")).2 = storeInsert
        [("k", CacheFile.record [("timestamp", JVal.num 0), ("value", JVal.str "v")])]
        (cache_path "k")
        (.record [("key", .str "k"), ("value", JVal.str "v"),
                  ("timestamp", .num 1)])) ∧
    (storeFind
        [("k", CacheFile.record [("timestamp", JVal.num 0), ("value", JVal.str "v")])]
        (cache_path "k")
        = some (.record [("timestamp", JVal.num 0), ("value", JVal.str "v")]) →
      lookupField [("timestamp", JVal.num 0), ("value", JVal.str "v")] ("timestamp")
        = some (.num 0) →
      lookupField [("timestamp", JVal.num 0), ("value", JVal.str "v")] ("value")
        = some (JVal.str "v") →
      Cache.get ⟨10, true⟩
        [("k", CacheFile.record [("timestamp", JVal.num 0), ("value", JVal.str "v")])]
        2 "k" =
        if (2 : Int) - 0 > (⟨10, true⟩ : Cache).ttl then
          (none, storeErase
            [("k", CacheFile.record [("timestamp", JVal.num 0), ("value", JVal.str "v")])]
            (cache_path "k"))
        else (some (JVal.str "v"),
          [("k", CacheFile.record [("timestamp", JVal.num 0), ("value", JVal.str "v")])])) ∧
    (storeFind
        [("k", CacheFile.record [("timestamp", JVal.num 0), ("value", JVal.str "v")])]
        (cache_path "k")
        = some (.record [("timestamp", JVal.num 0), ("value", JVal.str "v")]) →
      lookupField [("timestamp", JVal.num 0), ("value", JVal.str "v")] ("timestamp")
        = none →
      Cache.get ⟨10, true⟩
        [("k", CacheFile.record [("timestamp", JVal.num 0), ("value", JVal.str "v")])]
        2 "k" = (none,
          [("k", CacheFile.record [("timestamp", JVal.num 0), ("value", JVal.str "v")])]))) :=
  ⟨rfl, C8_amended ⟨10, true⟩
    [("k", CacheFile.record [("timestamp", JVal.num 0), ("value", JVal.str "v")])]
    1 2 0 "k" (JVal.str "v")
    [("timestamp", JVal.num 0), ("value", JVal.str "v")] rfl⟩

/-- Claim C9: `cleanup_expired` removes exactly the entries whose
elapsed time exceeds the governing TTL plus the unreadable/corrupt
entries, leaves every non-expired entry untouched, and is idempotent:
run again on its own output it removes 0 entries. -/
theorem C9_purge (c : Cache) (s : Store) (now : Int)
    (hen : c.enabled = true) :
    (∀ (name : String) (f : CacheFile),
      (name, f) ∈ (Cache.cleanup_expired c s now).2 ↔
        ((name, f) ∈ s ∧ ∃ data ts, f = CacheFile.record data ∧
          (lookupField data ("timestamp")).bind JVal.asNum = some ts ∧
          ¬(now - ts > c.ttl))) ∧
    (Cache.cleanup_expired c s now).1 +
      ((Cache.cleanup_expired c s now).2).length = s.length ∧
    (Cache.cleanup_expired c (Cache.cleanup_expired c s now).2 now).1 = 0 := by
  refine ⟨?_, ?_, ?_⟩
  · intro name f
    rw [Cache.cleanup_expired_enabled c now hen, cleanupLoop_snd,
      List.mem_filter]
    constructor
    · rintro ⟨hmem, hkeep⟩
      refine ⟨hmem, ?_⟩
      have hb : entryExpiredOrBad c now f = false := by simpa using hkeep
      exact (entryExpiredOrBad_false_iff c now f).mp hb
    · rintro ⟨hmem, hrest⟩
      refine ⟨hmem, ?_⟩
      have hb : entryExpiredOrBad c now f = false :=
        (entryExpiredOrBad_false_iff c now f).mpr hrest
      simpa using hb
  · rw [Cache.cleanup_expired_enabled c now hen]
    exact cleanupLoop_count c now s
  · rw [Cache.cleanup_expired_enabled c now hen,
      Cache.cleanup_expired_enabled c now hen]
    apply cleanupLoop_all_fresh
    intro e he
    rw [cleanupLoop_snd] at he
    have := (List.mem_filter.mp he).2
    simpa using this

/-- Witness for C9_purge on a concrete store holding one fresh, one
expired and one corrupt entry. -/
theorem C9_purge_witness :
    ((⟨10, true⟩ : Cache).enabled = true) ∧
    ((∀ (name : String) (f : CacheFile),
      (name, f) ∈ (Cache.cleanup_expired ⟨10, true⟩
        [("a", CacheFile.record [("timestamp", JVal.num 95), ("value", JVal.null)]),
         ("b", CacheFile.record [("timestamp", JVal.num 0), ("value", JVal.null)]),
         ("c", CacheFile.corrupt)] 100).2 ↔
        ((name, f) ∈
          ([("a", CacheFile.record [("timestamp", JVal.num 95), ("value", JVal.null)]),
            ("b", CacheFile.record [("timestamp", JVal.num 0), ("value", JVal.null)]),
            ("c", CacheFile.corrupt)] : Store) ∧
          ∃ data ts, f = CacheFile.record data ∧
          (lookupField data ("timestamp")).bind JVal.asNum = some ts ∧
          ¬((100 : Int) - ts > (⟨10, true⟩ : Cache).ttl))) ∧
    (Cache.cleanup_expired ⟨10, true⟩
        [("a", CacheFile.record [("timestamp", JVal.num 95), ("value", JVal.null)]),
         ("b", CacheFile.record [("timestamp", JVal.num 0), ("value", JVal.null)]),
         ("c", CacheFile.corrupt)] 100).1 +
      ((Cache.cleanup_expired ⟨10, true⟩
        [("a", CacheFile.record [("timestamp", JVal.num 95), ("value", JVal.null)]),
         ("b", CacheFile.record [("timestamp", JVal.num 0), ("value", JVal.null)]),
         ("c", CacheFile.corrupt)] 100).2).length =
      ([("a", CacheFile.record [("timestamp", JVal.num 95), ("value", JVal.null)]),
        ("b", CacheFile.record [("timestamp", JVal.num 0), ("value", JVal.null)]),
        ("c", CacheFile.corrupt)] : Store).length ∧
    (Cache.cleanup_expired ⟨10, true⟩
      (Cache.cleanup_expired ⟨10, true⟩
        [("a", CacheFile.record [("timestamp", JVal.num 95), ("value", JVal.null)]),
         ("b", CacheFile.record [("timestamp", JVal.num 0), ("value", JVal.null)]),
         ("c", CacheFile.corrupt)] 100).2 100).1 = 0) :=
  ⟨rfl, C9_purge ⟨10, true⟩
    [("a", CacheFile.record [("timestamp", JVal.num 95), ("value", JVal.null)]),
     ("b", CacheFile.record [("timestamp", JVal.num 0), ("value", JVal.null)]),
     ("c", CacheFile.corrupt)] 100 rfl⟩

/-- Claim C10: with the cache constructed disabled, every operation
is a pure no-op on the store: `get` returns absent, `set` returns
false without writing, `delete` returns false, `clear` returns 0 and
`cleanup_expired` removes nothing — the store is unchanged in every
case. -/
theorem C10_disabled_noop (c : Cache) (s : Store) (now : Int) (k : String)
    (v : JVal) (w : WriteMode) (hdis : c.enabled = false) :
    Cache.get c s now k = (none, s) ∧
    Cache.set c s now w k v = (false, s) ∧
    Cache.delete c s k = (false, s) ∧
    Cache.clear c s = (0, s) ∧
    Cache.cleanup_expired c s now = (0, s) := by
  refine ⟨?_, ?_, ?_, ?_, ?_⟩
  · unfold Cache.get
    rw [if_pos hdis]
  · unfold Cache.set
    rw [if_pos hdis]
  · unfold Cache.delete
    rw [if_pos hdis]
  · unfold Cache.clear
    rw [if_pos hdis]
  · unfold Cache.cleanup_expired
    rw [if_pos hdis]

/-- Witness for C10_disabled_noop on a concrete disabled cache. -/
theorem C10_disabled_noop_witness :
    ((⟨3600, false⟩ : Cache).enabled = false) ∧
    (Cache.get ⟨3600, false⟩ [("k", CacheFile.corrupt)] 0 "k"
        = (none, [("k", CacheFile.corrupt)]) ∧
     Cache.set ⟨3600, false⟩ [("k", CacheFile.corrupt)] 0 .ok "k" JVal.null
        = (false, [("k", CacheFile.corrupt)]) ∧
     Cache.delete ⟨3600, false⟩ [("k", CacheFile.corrupt)] "k"
        = (false, [("k", CacheFile.corrupt)]) ∧
     Cache.clear ⟨3600, false⟩ [("k", CacheFile.corrupt)]
        = (0, [("k", CacheFile.corrupt)]) ∧
     Cache.cleanup_expired ⟨3600, false⟩ [("k", CacheFile.corrupt)] 0
        = (0, [("k", CacheFile.corrupt)])) :=
  ⟨rfl, C10_disabled_noop ⟨3600, false⟩ [("k", CacheFile.corrupt)] 0 "k"
    JVal.null WriteMode.ok rfl⟩

theorem dictInsert_append (d : List (String × JVal)) (k : String) (v : JVal)
    (h : ∀ p ∈ d, p.1 ≠ k) :
    dictInsert d k v = d ++ [(k, v)] := by
  have hany : ¬((d.any (fun p => p.1 == k)) = true) := by
    intro hc
    rw [List.any_eq_true] at hc
    rcases hc with ⟨p, hp, hpk⟩
    exact h p hp (by simpa using hpk)
  unfold dictInsert
  rw [if_neg hany]

theorem run_scans_go_keys (tasks : List (String × TaskOutcome))
    (acc : List (String × JVal))
    (hnodup : (tasks.map Prod.fst).Nodup)
    (hdisj : ∀ t ∈ tasks, ∀ p ∈ acc, p.1 ≠ t.1) :
    (run_scans_go acc tasks).map Prod.fst =
      acc.map Prod.fst ++
        (tasks.filter (fun t => (t.2).isReturns)).map Prod.fst := by
  induction tasks generalizing acc with
  | nil => simp [run_scans_go]
  | cons t rest ih =>
    have hnodup' : (rest.map Prod.fst).Nodup :=
      (List.nodup_cons.mp (by simpa using hnodup)).2
    cases ho : t.2 with
    | raises e =>
      simp only [run_scans_go, ho]
      rw [ih acc hnodup'
        (fun t' ht' p hp => hdisj t' (List.mem_cons_of_mem t ht') p hp)]
      rw [List.filter_cons]
      simp [TaskOutcome.isReturns, ho]
    | returns v =>
      simp only [run_scans_go, ho]
      have hd : ∀ p ∈ acc, p.1 ≠ t.1 :=
        fun p hp => hdisj t (List.mem_cons_self t rest) p hp
      rw [dictInsert_append acc t.1 v hd]
      have hdisj2 : ∀ t' ∈ rest, ∀ p ∈ acc ++ [(t.1, v)], p.1 ≠ t'.1 := by
        intro t' ht' p hp
        rcases List.mem_append.mp hp with hpa | hps
        · exact hdisj t' (List.mem_cons_of_mem t ht') p hpa
        · have hpv : p = (t.1, v) := by simpa using hps
          have ht1 : t.1 ∉ rest.map Prod.fst :=
            (List.nodup_cons.mp (by simpa using hnodup)).1
          intro hEq
          rw [hpv] at hEq
          exact ht1 (hEq ▸ List.mem_map_of_mem Prod.fst ht')
      rw [ih (acc ++ [(t.1, v)]) hnodup' hdisj2]
      rw [List.filter_cons]
      simp [TaskOutcome.isReturns, ho, List.map_append, List.append_assoc]

/-- Claim C1, counterexample: with the requested probe set P =
{http}, a scanner task that raises an unexpected exception is NOT
recorded as a Failed result — it is dropped from the results mapping
altogether, so the report has no entry at all instead of exactly the
keys P. -/
theorem C1_counterexample :
    select_scanners ["http"] = ["http"] ∧
    run_scans (build_tasks (select_scanners ["http"])
      (fun _ => .raises ⟨"RuntimeError", "boom"⟩)) = [] :=
  ⟨rfl, rfl⟩

/-- Claim C1 (amended): exceptions from a scanner task never
propagate out of run_scans, but the raising probe is silently
omitted from the results mapping rather than recorded as Failed: the
keys of the results are exactly the selected probes (in catalog
order) whose task returned normally. -/
theorem C1_amended (selected : List String) (outcomes : String → TaskOutcome) :
    (run_scans (build_tasks selected outcomes)).map Prod.fst =
      available_scanners.filter
        (fun n => selected.contains n && (outcomes n).isReturns) := by
  have hnodup : ((build_tasks selected outcomes).map Prod.fst).Nodup := by
    by_cases hH : "http" ∈ selected <;>
    by_cases hD : "dns" ∈ selected <;>
    by_cases hS : "ssl" ∈ selected <;>
      simp [build_tasks, hH, hD, hS]
  have hkeys := run_scans_go_keys (build_tasks selected outcomes) []
    hnodup (by intro t ht p hp; exact absurd hp (List.not_mem_nil p))
  unfold run_scans
  rw [hkeys]
  simp only [List.map_nil, List.nil_append]
  have hblock : ∀ n, (((if selected.contains n then [(n, outcomes n)] else []).filter
      (fun t => (t.2).isReturns)).map Prod.fst) =
      if selected.contains n && (outcomes n).isReturns then [n] else [] := by
    intro n
    by_cases h : n ∈ selected
    · by_cases h2 : (outcomes n).isReturns = true
      · simp [h, h2]
      · simp [h, h2]
    · simp [h]
  unfold build_tasks
  rw [List.filter_append, List.filter_append, List.map_append, List.map_append,
    hblock ("http"), hblock ("dns"), hblock ("ssl")]
  show _ = List.filter _ ["http", "dns", "ssl"]
  rw [List.filter_cons, List.filter_cons, List.filter_cons, List.filter_nil]
  by_cases hH : "http" ∈ selected ∧ (outcomes "http").isReturns = true <;>
  by_cases hD : "dns" ∈ selected ∧ (outcomes "dns").isReturns = true <;>
  by_cases hS : "ssl" ∈ selected ∧ (outcomes "ssl").isReturns = true <;>
    simp [hH, hD, hS]

/-- Claim C2, counterexample: requesting the unregistered probe name
"ftp" raises no ConfigurationError (no such error exists anywhere in
the code); the name is silently dropped during selection and the
scan proceeds with zero scanners and an empty results mapping. -/
theorem C2_counterexample :
    select_scanners ["ftp"] = [] ∧
    run_scans (build_tasks (select_scanners ["ftp"])
      (fun _ => .returns (JVal.obj [("status", JVal.str "success")]))) = [] :=
  ⟨rfl, rfl⟩

/-- Claim C2 (amended): unknown probe names are silently filtered
out of the requested set during selection (never an error): a name
is selected iff either no names were requested (then the whole
catalog runs) or its lowercasing is a requested name that lies in
the catalog. -/
theorem C2_amended (ss : List String) (s : String) :
    s ∈ select_scanners ss ↔
      ((ss = [] ∧ s ∈ available_scanners) ∨
        (s ∈ available_scanners ∧ ∃ t ∈ ss, pyLower t = s)) := by
  cases ss with
  | nil => simp [select_scanners]
  | cons a rest =>
    rw [show select_scanners (a :: rest) =
      ((a :: rest).map pyLower).filter
        (fun s => decide (s ∈ available_scanners)) from rfl]
    constructor
    · intro hmem
      rcases List.mem_filter.mp hmem with ⟨hmap, hdec⟩
      rcases List.mem_map.mp hmap with ⟨t, ht, rfl⟩
      exact Or.inr ⟨of_decide_eq_true hdec, t, ht, rfl⟩
    · rintro (⟨hnil, _⟩ | ⟨hav, t, ht, rfl⟩)
      · exact absurd hnil (by simp)
      · exact List.mem_filter.mpr
          ⟨List.mem_map.mpr ⟨t, ht, rfl⟩, decide_eq_true hav⟩

theorem cacheCheck_fst_some_store (c : Option Cache) (s : Store) (now : Int)
    (k : String) (v : JVal) (h : (cacheCheck c s now k).1 = some v) :
    (cacheCheck c s now k).2 = s := by
  cases c with
  | none => rfl
  | some cc =>
    rcases hr : (Cache.get cc s now k).1 with _ | v2
    · simp [cacheCheck, hr] at h
    · cases ht : v2.truthy with
      | false => simp [cacheCheck, hr, ht] at h
      | true =>
        simp only [cacheCheck, hr, ht, if_true]
        exact Cache.get_some_store cc s now k v2 hr

theorem cacheCheck_miss_again (c : Option Cache) (s : Store) (now : Int)
    (k : String) (h : (cacheCheck c s now k).1 = none) :
    cacheCheck c (cacheCheck c s now k).2 now k =
      (none, (cacheCheck c s now k).2) := by
  cases c with
  | none => rfl
  | some cc =>
    rcases hr : (Cache.get cc s now k).1 with _ | v
    · have h2 := Cache.get_miss_again cc s now k hr
      have hsnd : (cacheCheck (some cc) s now k).2 = (Cache.get cc s now k).2 := by
        simp [cacheCheck, hr]
      rw [hsnd]
      simp only [cacheCheck]
      rw [h2]
    · cases ht : v.truthy with
      | true =>
        exfalso
        simp [cacheCheck, hr, ht] at h
      | false =>
        have hs := Cache.get_some_store cc s now k v hr
        have hsnd : (cacheCheck (some cc) s now k).2 = s := by
          simp [cacheCheck, hr, ht, hs]
        rw [hsnd]
        simp [cacheCheck, hr, ht, hs]

theorem HttpScanner.http_scan_hit (c : Option Cache) (s : Store) (now : Int)
    (w : WriteMode) (t : String) (net : HttpNet) (v : JVal)
    (hck : (cacheCheck c s now ("http:" ++ normalizeHttpTarget t)).1 = some v) :
    HttpScanner.scan c s now w t net =
      ⟨v, (cacheCheck c s now ("http:" ++ normalizeHttpTarget t)).2, false⟩ := by
  simp only [HttpScanner.scan, hck]

theorem HttpScanner.http_scan_executed_miss (c : Option Cache) (s : Store)
    (now : Int) (w : WriteMode) (t : String) (net : HttpNet)
    (h : (HttpScanner.scan c s now w t net).executed = true) :
    (cacheCheck c s now ("http:" ++ normalizeHttpTarget t)).1 = none := by
  rcases hck : (cacheCheck c s now ("http:" ++ normalizeHttpTarget t)).1 with _ | v
  · rfl
  · rw [HttpScanner.http_scan_hit c s now w t net v hck] at h
    exact absurd h (by simp)

theorem HttpScanner.http_scan_timeout (c : Option Cache) (s : Store) (now : Int)
    (w : WriteMode) (t : String) (e : PyError)
    (hck : (cacheCheck c s now ("http:" ++ normalizeHttpTarget t)).1 = none) :
    HttpScanner.scan c s now w t (.timeoutExc e) =
      ⟨create_degraded_result e [("timeout", .bool true)],
        (cacheCheck c s now ("http:" ++ normalizeHttpTarget t)).2, true⟩ := by
  simp only [HttpScanner.scan, hck]

theorem HttpScanner.http_scan_connect (c : Option Cache) (s : Store) (now : Int)
    (w : WriteMode) (t : String) (e : PyError)
    (hck : (cacheCheck c s now ("http:" ++ normalizeHttpTarget t)).1 = none) :
    HttpScanner.scan c s now w t (.connectExc e) =
      ⟨create_degraded_result e [("connection_error", .bool true)],
        (cacheCheck c s now ("http:" ++ normalizeHttpTarget t)).2, true⟩ := by
  simp only [HttpScanner.scan, hck]

theorem HttpScanner.http_scan_other (c : Option Cache) (s : Store) (now : Int)
    (w : WriteMode) (t : String) (e : PyError)
    (hck : (cacheCheck c s now ("http:" ++ normalizeHttpTarget t)).1 = none) :
    HttpScanner.scan c s now w t (.otherExc e) =
      ⟨create_failed_result e,
        (cacheCheck c s now ("http:" ++ normalizeHttpTarget t)).2, true⟩ := by
  simp only [HttpScanner.scan, hck]

theorem HttpScanner.scan_completes (cc : Cache) (s : Store) (now : Int)
    (w : WriteMode) (t : String) (sigs : List Signal) (sm : String)
    (dt : List (String × JVal))
    (hck : (cacheCheck (some cc) s now
      ("http:" ++ normalizeHttpTarget t)).1 = none) :
    HttpScanner.scan (some cc) s now w t (.completes sigs sm dt) =
      ⟨create_result .success sigs sm dt,
        (Cache.set cc
          (cacheCheck (some cc) s now ("http:" ++ normalizeHttpTarget t)).2
          now w ("http:" ++ normalizeHttpTarget t)
          (create_result .success sigs sm dt)).2, true⟩ := by
  simp only [HttpScanner.scan, hck]

theorem HttpScanner.http_scan_failing (c : Option Cache) (s : Store) (now : Int)
    (w : WriteMode) (t : String) (net : HttpNet)
    (hfail : net.isFailing = true)
    (hck : (cacheCheck c s now ("http:" ++ normalizeHttpTarget t)).1 = none) :
    (HttpScanner.scan c s now w t net).store =
      (cacheCheck c s now ("http:" ++ normalizeHttpTarget t)).2 ∧
    (HttpScanner.scan c s now w t net).executed = true := by
  cases net with
  | completes a b d => simp [HttpNet.isFailing] at hfail
  | timeoutExc e =>
    rw [HttpScanner.http_scan_timeout c s now w t e hck]
    exact ⟨rfl, rfl⟩
  | connectExc e =>
    rw [HttpScanner.http_scan_connect c s now w t e hck]
    exact ⟨rfl, rfl⟩
  | otherExc e =>
    rw [HttpScanner.http_scan_other c s now w t e hck]
    exact ⟨rfl, rfl⟩

theorem DnsScanner.dns_scan_hit (c : Option Cache) (s : Store) (now : Int)
    (w : WriteMode) (t : String) (net : DnsNet) (v : JVal)
    (hck : (cacheCheck c s now ("dns:" ++ normalizeDnsTarget t)).1 = some v) :
    DnsScanner.scan c s now w t net =
      ⟨v, (cacheCheck c s now ("dns:" ++ normalizeDnsTarget t)).2, false⟩ := by
  simp only [DnsScanner.scan, hck]

theorem DnsScanner.dns_scan_executed_miss (c : Option Cache) (s : Store)
    (now : Int) (w : WriteMode) (t : String) (net : DnsNet)
    (h : (DnsScanner.scan c s now w t net).executed = true) :
    (cacheCheck c s now ("dns:" ++ normalizeDnsTarget t)).1 = none := by
  rcases hck : (cacheCheck c s now ("dns:" ++ normalizeDnsTarget t)).1 with _ | v
  · rfl
  · rw [DnsScanner.dns_scan_hit c s now w t net v hck] at h
    exact absurd h (by simp)

theorem DnsScanner.dns_scan_timeout (c : Option Cache) (s : Store) (now : Int)
    (w : WriteMode) (t : String) (e : PyError)
    (cd : List (String × JVal))
    (hck : (cacheCheck c s now ("dns:" ++ normalizeDnsTarget t)).1 = none) :
    DnsScanner.scan c s now w t (.timeoutExc e cd) =
      ⟨create_degraded_result e cd,
        (cacheCheck c s now ("dns:" ++ normalizeDnsTarget t)).2, true⟩ := by
  simp only [DnsScanner.scan, hck]

theorem DnsScanner.scan_nxdomain (c : Option Cache) (s : Store) (now : Int)
    (w : WriteMode) (t : String)
    (hck : (cacheCheck c s now ("dns:" ++ normalizeDnsTarget t)).1 = none) :
    DnsScanner.scan c s now w t .nxdomain =
      ⟨create_failed_result
        ⟨"Exception", "Domain does not exist: " ++ normalizeDnsTarget t⟩,
        (cacheCheck c s now ("dns:" ++ normalizeDnsTarget t)).2, true⟩ := by
  simp only [DnsScanner.scan, hck]

theorem DnsScanner.dns_scan_other (c : Option Cache) (s : Store) (now : Int)
    (w : WriteMode) (t : String) (e : PyError)
    (hck : (cacheCheck c s now ("dns:" ++ normalizeDnsTarget t)).1 = none) :
    DnsScanner.scan c s now w t (.otherExc e) =
      ⟨create_failed_result e,
        (cacheCheck c s now ("dns:" ++ normalizeDnsTarget t)).2, true⟩ := by
  simp only [DnsScanner.scan, hck]

theorem DnsScanner.dns_scan_failing (c : Option Cache) (s : Store) (now : Int)
    (w : WriteMode) (t : String) (net : DnsNet)
    (hfail : net.isFailing = true)
    (hck : (cacheCheck c s now ("dns:" ++ normalizeDnsTarget t)).1 = none) :
    (DnsScanner.scan c s now w t net).store =
      (cacheCheck c s now ("dns:" ++ normalizeDnsTarget t)).2 ∧
    (DnsScanner.scan c s now w t net).executed = true := by
  cases net with
  | completes a b d => simp [DnsNet.isFailing] at hfail
  | nxdomain =>
    rw [DnsScanner.scan_nxdomain c s now w t hck]
    exact ⟨rfl, rfl⟩
  | timeoutExc e cd =>
    rw [DnsScanner.dns_scan_timeout c s now w t e cd hck]
    exact ⟨rfl, rfl⟩
  | otherExc e =>
    rw [DnsScanner.dns_scan_other c s now w t e hck]
    exact ⟨rfl, rfl⟩

theorem SslScanner.ssl_scan_hit (c : Option Cache) (s : Store) (now : Int)
    (w : WriteMode) (t : String) (net : SslNet) (v : JVal)
    (hck : (cacheCheck c s now
      ("ssl:" ++ (sslHostPort t).1 ++ ":" ++ toString (sslHostPort t).2)).1
      = some v) :
    SslScanner.scan c s now w t net =
      ⟨v, (cacheCheck c s now
        ("ssl:" ++ (sslHostPort t).1 ++ ":" ++ toString (sslHostPort t).2)).2,
        false⟩ := by
  simp only [SslScanner.scan, hck]

theorem SslScanner.ssl_scan_executed_miss (c : Option Cache) (s : Store)
    (now : Int) (w : WriteMode) (t : String) (net : SslNet)
    (h : (SslScanner.scan c s now w t net).executed = true) :
    (cacheCheck c s now
      ("ssl:" ++ (sslHostPort t).1 ++ ":" ++ toString (sslHostPort t).2)).1
      = none := by
  rcases hck : (cacheCheck c s now
    ("ssl:" ++ (sslHostPort t).1 ++ ":" ++ toString (sslHostPort t).2)).1
    with _ | v
  · rfl
  · rw [SslScanner.ssl_scan_hit c s now w t net v hck] at h
    exact absurd h (by simp)

/-- Claim C4: only Success outcomes are ever written to the cache.
A probe invocation that executes and ends Partial or Failed leaves
the store exactly as the cache check left it (nothing written), so
an immediate second run with cache enabled misses the cache and
invokes the network phase again — shown for the HTTP and DNS
scanners; and a Success outcome (with a working write) is present in
the cache when the runner returns. -/
theorem C4_success_only_cached (c : Cache) (s sd : Store) (now : Int)
    (w : WriteMode) (t : String) (netH : HttpNet) (netD : DnsNet)
    (sigs : List Signal) (sm : String) (dt : List (String × JVal))
    (hH : netH.isFailing = true) (hD : netD.isFailing = true)
    (hen : c.enabled = true) :
    ((HttpScanner.scan (some c) s now w t netH).executed = true →
      (HttpScanner.scan (some c) s now w t netH).store =
        (cacheCheck (some c) s now ("http:" ++ normalizeHttpTarget t)).2 ∧
      (HttpScanner.scan (some c)
        (HttpScanner.scan (some c) s now w t netH).store now w t netH).executed
        = true) ∧
    ((DnsScanner.scan (some c) sd now w t netD).executed = true →
      (DnsScanner.scan (some c) sd now w t netD).store =
        (cacheCheck (some c) sd now ("dns:" ++ normalizeDnsTarget t)).2 ∧
      (DnsScanner.scan (some c)
        (DnsScanner.scan (some c) sd now w t netD).store now w t netD).executed
        = true) ∧
    ((HttpScanner.scan (some c) s now .ok t
        (.completes sigs sm dt)).executed = true →
      storeFind
        (HttpScanner.scan (some c) s now .ok t (.completes sigs sm dt)).store
        (cache_path ("http:" ++ normalizeHttpTarget t)) =
        some (.record [("key", .str ("http:" ++ normalizeHttpTarget t)),
          ("value", create_result .success sigs sm dt),
          ("timestamp", .num now)])) := by
  refine ⟨?_, ?_, ?_⟩
  · intro hex
    have hck := HttpScanner.http_scan_executed_miss (some c) s now w t netH hex
    have hf1 := HttpScanner.http_scan_failing (some c) s now w t netH hH hck
    refine ⟨hf1.1, ?_⟩
    rw [hf1.1]
    have h2 := cacheCheck_miss_again (some c) s now
      ("http:" ++ normalizeHttpTarget t) hck
    have hck2 : (cacheCheck (some c)
        (cacheCheck (some c) s now ("http:" ++ normalizeHttpTarget t)).2 now
        ("http:" ++ normalizeHttpTarget t)).1 = none := by
      rw [h2]
    exact (HttpScanner.http_scan_failing (some c) _ now w t netH hH hck2).2
  · intro hex
    have hck := DnsScanner.dns_scan_executed_miss (some c) sd now w t netD hex
    have hf1 := DnsScanner.dns_scan_failing (some c) sd now w t netD hD hck
    refine ⟨hf1.1, ?_⟩
    rw [hf1.1]
    have h2 := cacheCheck_miss_again (some c) sd now
      ("dns:" ++ normalizeDnsTarget t) hck
    have hck2 : (cacheCheck (some c)
        (cacheCheck (some c) sd now ("dns:" ++ normalizeDnsTarget t)).2 now
        ("dns:" ++ normalizeDnsTarget t)).1 = none := by
      rw [h2]
    exact (DnsScanner.dns_scan_failing (some c) _ now w t netD hD hck2).2
  · intro hex
    have hck := HttpScanner.http_scan_executed_miss (some c) s now .ok t
      (.completes sigs sm dt) hex
    rw [HttpScanner.scan_completes c s now .ok t sigs sm dt hck]
    rw [Cache.set_ok c
      (cacheCheck (some c) s now ("http:" ++ normalizeHttpTarget t)).2 now
      ("http:" ++ normalizeHttpTarget t)
      (create_result .success sigs sm dt) hen]
    exact storeFind_insert_self _ _ _

/-- Witness for C4_success_only_cached at a concrete failing HTTP
probe (timeout), a failing DNS probe (NXDOMAIN) and a successful
HTTP probe, on an empty cache. -/
theorem C4_success_only_cached_witness :
    ((HttpNet.timeoutExc ⟨"TimeoutException", "t"⟩).isFailing = true ∧
     (DnsNet.nxdomain).isFailing = true ∧
     (⟨3600, true⟩ : Cache).enabled = true) ∧
    (((HttpScanner.scan (some ⟨3600, true⟩) [] 0 .ok "example.com"
        (.timeoutExc ⟨"TimeoutException", "t"⟩)).executed = true →
      (HttpScanner.scan (some ⟨3600, true⟩) [] 0 .ok "example.com"
        (.timeoutExc ⟨"TimeoutException", "t"⟩)).store =
        (cacheCheck (some ⟨3600, true⟩) [] 0
          ("http:" ++ normalizeHttpTarget "example.com")).2 ∧
      (HttpScanner.scan (some ⟨3600, true⟩)
        (HttpScanner.scan (some ⟨3600, true⟩) [] 0 .ok "example.com"
          (.timeoutExc ⟨"TimeoutException", "t"⟩)).store 0 .ok "example.com"
        (.timeoutExc ⟨"TimeoutException", "t"⟩)).executed = true) ∧
    ((DnsScanner.scan (some ⟨3600, true⟩) [] 0 .ok "example.com"
        .nxdomain).executed = true →
      (DnsScanner.scan (some ⟨3600, true⟩) [] 0 .ok "example.com"
        .nxdomain).store =
        (cacheCheck (some ⟨3600, true⟩) [] 0
          ("dns:" ++ normalizeDnsTarget "example.com")).2 ∧
      (DnsScanner.scan (some ⟨3600, true⟩)
        (DnsScanner.scan (some ⟨3600, true⟩) [] 0 .ok "example.com"
          .nxdomain).store 0 .ok "example.com" .nxdomain).executed = true) ∧
    ((HttpScanner.scan (some ⟨3600, true⟩) [] 0 .ok "example.com"
        (.completes [] "s" [])).executed = true →
      storeFind
        (HttpScanner.scan (some ⟨3600, true⟩) [] 0 .ok "example.com"
          (.completes [] "s" [])).store
        (cache_path ("http:" ++ normalizeHttpTarget "example.com")) =
        some (.record
          [("key", .str ("http:" ++ normalizeHttpTarget "example.com")),
           ("value", create_result .success [] "s" []),
           ("timestamp", .num 0)]))) :=
  ⟨⟨rfl, rfl, rfl⟩,
    C4_success_only_cached ⟨3600, true⟩ [] [] 0 .ok "example.com"
      (.timeoutExc ⟨"TimeoutException", "t"⟩) .nxdomain [] "s" []
      rfl rfl rfl⟩

/-- Claim C5, counterexample: an HTTP probe whose network phase
raises the timeout exception produces a result with status
"partial", not "failed" — refuting the claimed Failed-with-category-
timeout outcome. -/
theorem C5_counterexample :
    jvalField (HttpScanner.scan (some ⟨3600, true⟩) [] 0 .ok "example.com"
      (.timeoutExc ⟨"TimeoutException", "timed out"⟩)).result ("status")
      = some (JVal.str "partial") ∧
    ¬(jvalField (HttpScanner.scan (some ⟨3600, true⟩) [] 0 .ok "example.com"
      (.timeoutExc ⟨"TimeoutException", "timed out"⟩)).result ("status")
      = some (JVal.str "failed")) := by
  refine ⟨rfl, ?_⟩
  intro h
  rw [show jvalField (HttpScanner.scan (some ⟨3600, true⟩) [] 0 .ok
      "example.com"
      (.timeoutExc ⟨"TimeoutException", "timed out"⟩)).result ("status")
      = some (JVal.str "partial") from rfl] at h
  injection h with h2
  injection h2 with h3
  exact absurd h3 (by decide)

theorem DnsScanner.scanQueries_hit (c : Option Cache) (s : Store) (now : Int)
    (w : WriteMode) (t : String) (queries : String → DnsQuery) (v : JVal)
    (hck : (cacheCheck c s now ("dns:" ++ normalizeDnsTarget t)).1 = some v) :
    DnsScanner.scanQueries c s now w t queries =
      ⟨v, (cacheCheck c s now ("dns:" ++ normalizeDnsTarget t)).2, false⟩ := by
  simp only [DnsScanner.scanQueries, hck]

theorem DnsScanner.scanQueries_executed_miss (c : Option Cache) (s : Store)
    (now : Int) (w : WriteMode) (t : String) (queries : String → DnsQuery)
    (h : (DnsScanner.scanQueries c s now w t queries).executed = true) :
    (cacheCheck c s now ("dns:" ++ normalizeDnsTarget t)).1 = none := by
  rcases hck : (cacheCheck c s now ("dns:" ++ normalizeDnsTarget t)).1
    with _ | v
  · rfl
  · rw [DnsScanner.scanQueries_hit c s now w t queries v hck] at h
    exact absurd h (by simp)

theorem DnsScanner.scanQueries_success (c : Option Cache) (s : Store)
    (now : Int) (w : WriteMode) (t : String) (queries : String → DnsQuery)
    (details0 : List (String × JVal)) (sigs0 : List Signal)
    (hck : (cacheCheck c s now ("dns:" ++ normalizeDnsTarget t)).1 = none)
    (hloop : dnsQueryLoop queries dnsRecordTypes [] [] =
      some (details0, sigs0)) :
    (DnsScanner.scanQueries c s now w t queries).result =
      create_result .success (sigs0 ++ dnsSpfDmarcSignals details0)
        (dnsSummary details0 (sigs0 ++ dnsSpfDmarcSignals details0))
        details0 ∧
    (DnsScanner.scanQueries c s now w t queries).executed = true := by
  simp only [DnsScanner.scanQueries, hck, hloop]
  cases c with
  | none => exact ⟨rfl, rfl⟩
  | some cc => exact ⟨rfl, rfl⟩

theorem SslScanner.scan_certNone (c : Option Cache) (s : Store) (now : Int)
    (w : WriteMode) (t : String)
    (hck : (cacheCheck c s now
      ("ssl:" ++ (sslHostPort t).1 ++ ":" ++ toString (sslHostPort t).2)).1
      = none) :
    SslScanner.scan c s now w t .certNone =
      ⟨create_failed_result
        ⟨"Exception", "Could not retrieve certificate for "
          ++ (sslHostPort t).1 ++ ":" ++ toString (sslHostPort t).2⟩,
        (cacheCheck c s now
          ("ssl:" ++ (sslHostPort t).1 ++ ":" ++ toString (sslHostPort t).2)).2,
        true⟩ := by
  simp only [SslScanner.scan, hck]

/-- Claim C5 (amended): no scanner turns a timeout into a Failed
result with error category timeout; what actually happens differs
per scanner. HTTP: the timeout exception reaches the scan-level
handler and yields a degraded PARTIAL result carrying the error
text. DNS: `dns.exception.Timeout` from `resolver.resolve` is caught
by the per-record-type `except Exception`, so each timed-out query
just records an empty list — a scan in which every query times out
still completes with status SUCCESS and all record lists empty. SSL:
`_get_certificate` swallows the timeout and returns `None`, after
which the scan returns the generic FAILED "Could not retrieve
certificate" result, whose error mentions no timeout category. -/
theorem C5_amended (c : Option Cache) (s sd se : Store) (now : Int)
    (w : WriteMode) (t : String) (e : PyError)
    (queries : String → DnsQuery) (eD : String → PyError) (eS : PyError)
    (hH : (HttpScanner.scan c s now w t (.timeoutExc e)).executed = true)
    (hq : ∀ rt ∈ dnsRecordTypes, queries rt = DnsQuery.queryExc (eD rt))
    (hD : (DnsScanner.scanQueries c sd now w t queries).executed = true)
    (hS : (SslScanner.scan c se now w t .certNone).executed = true) :
    jvalField (HttpScanner.scan c s now w t (.timeoutExc e)).result ("status")
      = some (JVal.str "partial") ∧
    jvalField (HttpScanner.scan c s now w t (.timeoutExc e)).result ("error")
      = some (JVal.str e.emsg) ∧
    jvalField (DnsScanner.scanQueries c sd now w t queries).result ("status")
      = some (JVal.str "success") ∧
    jvalField (DnsScanner.scanQueries c sd now w t queries).result ("details")
      = some (JVal.obj
          [("a", .arr []), ("aaaa", .arr []), ("mx", .arr []),
           ("txt", .arr []), ("ns", .arr []), ("soa", .arr [])]) ∧
    SslScanner.get_certificate (.error eS) = none ∧
    jvalField (SslScanner.scan c se now w t .certNone).result ("status")
      = some (JVal.str "failed") ∧
    jvalField (SslScanner.scan c se now w t .certNone).result ("error")
      = some (JVal.str ("Could not retrieve certificate for "
          ++ (sslHostPort t).1 ++ ":" ++ toString (sslHostPort t).2)) := by
  have hckH := HttpScanner.http_scan_executed_miss c s now w t
    (.timeoutExc e) hH
  have hckD := DnsScanner.scanQueries_executed_miss c sd now w t queries hD
  have hckS := SslScanner.ssl_scan_executed_miss c se now w t .certNone hS
  have hA := hq "A" (by simp [dnsRecordTypes])
  have hAAAA := hq "AAAA" (by simp [dnsRecordTypes])
  have hMX := hq "MX" (by simp [dnsRecordTypes])
  have hTXT := hq "TXT" (by simp [dnsRecordTypes])
  have hNS := hq "NS" (by simp [dnsRecordTypes])
  have hSOA := hq "SOA" (by simp [dnsRecordTypes])
  have hloop : dnsQueryLoop queries dnsRecordTypes [] [] =
      some ([("a", .arr []), ("aaaa", .arr []), ("mx", .arr []),
             ("txt", .arr []), ("ns", .arr []), ("soa", .arr [])], []) := by
    simp only [dnsRecordTypes, dnsQueryLoop, hA, hAAAA, hMX, hTXT, hNS, hSOA]
    rfl
  have hdns := DnsScanner.scanQueries_success c sd now w t queries
    [("a", .arr []), ("aaaa", .arr []), ("mx", .arr []),
     ("txt", .arr []), ("ns", .arr []), ("soa", .arr [])] [] hckD hloop
  rw [HttpScanner.http_scan_timeout c s now w t e hckH,
    SslScanner.scan_certNone c se now w t hckS, hdns.1]
  exact ⟨rfl, rfl, rfl, rfl, rfl, rfl, rfl⟩

/-- Witness for C5_amended with no cache configured (every scan
executes) at a concrete target, with every DNS record query raising
the resolver timeout. -/
theorem C5_amended_witness :
    ((HttpScanner.scan none [] 0 .ok "example.com"
        (.timeoutExc ⟨"TimeoutException", "tmo"⟩)).executed = true ∧
     (∀ rt ∈ dnsRecordTypes,
        (fun _ => DnsQuery.queryExc
          (⟨"Timeout", "The DNS operation timed out"⟩ : PyError)) rt =
        DnsQuery.queryExc
          ((fun _ => (⟨"Timeout", "The DNS operation timed out"⟩ : PyError)) rt)) ∧
     (DnsScanner.scanQueries none [] 0 .ok "example.com"
        (fun _ => DnsQuery.queryExc
          ⟨"Timeout", "The DNS operation timed out"⟩)).executed = true ∧
     (SslScanner.scan none [] 0 .ok "example.com" .certNone).executed
        = true) ∧
    (jvalField (HttpScanner.scan none [] 0 .ok "example.com"
        (.timeoutExc ⟨"TimeoutException", "tmo"⟩)).result ("status")
      = some (JVal.str "partial") ∧
     jvalField (HttpScanner.scan none [] 0 .ok "example.com"
        (.timeoutExc ⟨"TimeoutException", "tmo"⟩)).result ("error")
      = some (JVal.str "tmo") ∧
     jvalField (DnsScanner.scanQueries none [] 0 .ok "example.com"
        (fun _ => DnsQuery.queryExc
          ⟨"Timeout", "The DNS operation timed out"⟩)).result ("status")
      = some (JVal.str "success") ∧
     jvalField (DnsScanner.scanQueries none [] 0 .ok "example.com"
        (fun _ => DnsQuery.queryExc
          ⟨"Timeout", "The DNS operation timed out"⟩)).result ("details")
      = some (JVal.obj
          [("a", .arr []), ("aaaa", .arr []), ("mx", .arr []),
           ("txt", .arr []), ("ns", .arr []), ("soa", .arr [])]) ∧
     SslScanner.get_certificate
        (.error (⟨"socket.timeout", "timed out"⟩ : PyError)) = none ∧
     jvalField (SslScanner.scan none [] 0 .ok "example.com"
        .certNone).result ("status") = some (JVal.str "failed") ∧
     jvalField (SslScanner.scan none [] 0 .ok "example.com"
        .certNone).result ("error")
      = some (JVal.str ("Could not retrieve certificate for "
          ++ (sslHostPort "example.com").1 ++ ":"
          ++ toString (sslHostPort "example.com").2))) :=
  ⟨⟨rfl, fun _ _ => rfl, rfl, rfl⟩,
    C5_amended none [] [] [] 0 .ok "example.com"
      ⟨"TimeoutException", "tmo"⟩
      (fun _ => DnsQuery.queryExc ⟨"Timeout", "The DNS operation timed out"⟩)
      (fun _ => ⟨"Timeout", "The DNS operation timed out"⟩)
      ⟨"socket.timeout", "timed out"⟩
      rfl (fun _ _ => rfl) rfl rfl⟩
